import Mathlib

/-!
# Interaction core of the robot dog (`src/robot-dog/Interact.cpp`)

A shallow embedding of the event-group lifecycle, the three input drivers
(cap touch ISR, limit switch ISR, photo resistor poller) and the two output
tasks (sound, LED matrix), followed by the properties proved about them.

Conventions of the embedding

* Handles (`EventGroupHandle_t`, `TaskHandle_t`) are natural numbers, `NULL` is `0`.
* `EventBits_t` is a 32-bit word held in a `Nat`; `~x` is taken in 32 bits.
* Calls into the platform (FreeRTOS, Arduino core, LedMatrix, XT_DAC_Audio) are
  recorded, in program order, in `State.trace`.
* What the platform answers (allocator result, analog sample, whether the timer
  queue accepted an ISR request, how long the sample keeps playing) is an explicit
  argument of the function that asks.
* `Serial.println` under `#ifdef DEBUG` is left out.
-/

namespace RobotDog

/-! ## Data model -/

/-- Pull resistor configuration handed to `pinMode`. -/
inductive PinMode
  | INPUT_PULLDOWN
  | INPUT_PULLUP
  deriving DecidableEq, Repr

/-- Calls into the platform, as they appear in `Interact.cpp`. -/
inductive Event
  | xEventGroupCreate
  | vEventGroupDelete
  | pinMode (pin : Nat) (mode : PinMode)
  | attachInterrupt (pin : Nat) (mode : Int)
  | xEventGroupSetBitsFromISR (mask : Nat)
  | portYIELD_FROM_ISR
  | analogRead (pin : Nat)
  | xEventGroupSetBits (mask : Nat)
  | xEventGroupWaitBits (mask : Nat)
  | xEventGroupClearBits (mask : Nat)
  | xTaskCreate (name : String) (argv : List Nat)
  | vTaskDelayUntil (ticks : Nat)
  | vTaskDelay (ticks : Nat)
  | taskYIELD
  | Play
  | FillBuffer
  | StopAllSounds
  | setText (text : String)
  | clear
  | scrollTextLeft
  | drawText
  | commit
  | setColumn (column : Nat) (value : Nat)
  deriving DecidableEq, Repr

/-- Values of the preprocessor constants that `Interact.cpp` takes from headers
which are not among the sources (`Interact.h`, the Arduino core, the FreeRTOS port).
Theorems that need the three `*_BIT` masks to be independently addressable flags say so
with `IsFlag` and inequalities. -/
structure Macros where
  CAP_TOUCH_BIT : Nat
  LIMIT_SWITCH_BIT : Nat
  PHOTO_RESIETOR_BIT : Nat
  RISING : Int
  FALLING : Int
  portTICK_PERIOD_MS : Nat
  deriving Repr

/-- The constants as the ESP32 Arduino core and a one-bit-per-flag header give them:
`BIT0`, `BIT1`, `BIT2`, `RISING = 1`, `FALLING = 2`, a 1 kHz tick. -/
def esp32 : Macros :=
  { CAP_TOUCH_BIT := 1, LIMIT_SWITCH_BIT := 2, PHOTO_RESIETOR_BIT := 4,
    RISING := 1, FALLING := 2, portTICK_PERIOD_MS := 1 }

/-- A flag mask selects exactly one of the 32 bits of an `EventBits_t`. -/
def IsFlag (mask : Nat) : Prop := ∃ i, i < 32 ∧ mask = 2 ^ i

/-- The global `interactEG`, the bits of the event group it refers to, and the
platform calls made so far. -/
structure State where
  interactEG : Nat
  bits : Nat
  trace : List Event
  deriving DecidableEq, Repr

/-- Record platform calls at the end of the trace. -/
def emit (es : List Event) (s : State) : State :=
  { s with trace := s.trace ++ es }

/-! ## FreeRTOS event group operations -/

/-- The C expression `~mask` on a 32-bit `EventBits_t`. -/
def not32 (mask : Nat) : Nat := (2 ^ 32 - 1) ^^^ (mask % 2 ^ 32)

/-- `xEventGroupCreate()`: `alloc` is the handle the allocator hands out (`0` when it
fails); a fresh group has no bit set. -/
def xEventGroupCreate (alloc : Nat) (s : State) : Nat × State :=
  (alloc, { s with bits := if alloc = 0 then s.bits else 0,
                   trace := s.trace ++ [Event.xEventGroupCreate] })

/-- `xEventGroupSetBits(interactEG, mask)`. -/
def xEventGroupSetBits (mask : Nat) (s : State) : State :=
  { s with bits := s.bits ||| mask, trace := s.trace ++ [Event.xEventGroupSetBits mask] }

/-- `xEventGroupSetBitsFromISR(interactEG, mask, &woken)`: `queued` tells whether the
timer service queue accepted the request; only then are the bits set and `pdPASS`
(`true`) returned.  FreeRTOS has the timer service task carry out the set; here it
takes effect with the call. -/
def xEventGroupSetBitsFromISR (mask : Nat) (queued : Bool) (s : State) : Bool × State :=
  if queued then
    (true, { s with bits := s.bits ||| mask,
                    trace := s.trace ++ [Event.xEventGroupSetBitsFromISR mask] })
  else
    (false, emit [Event.xEventGroupSetBitsFromISR mask] s)

/-- `xEventGroupClearBits(interactEG, mask)`. -/
def xEventGroupClearBits (mask : Nat) (s : State) : State :=
  { s with bits := s.bits &&& not32 mask,
           trace := s.trace ++ [Event.xEventGroupClearBits mask] }

/-- `xEventGroupWaitBits(interactEG, mask, clearOnExit, waitForAll, portMAX_DELAY)`:
`none` while the caller stays blocked, otherwise the value of the bits handed back
and the state on return. -/
def xEventGroupWaitBits (mask : Nat) (clearOnExit waitForAll : Bool) (s : State) :
    Option (Nat × State) :=
  if (if waitForAll then s.bits &&& mask = mask else s.bits &&& mask ≠ 0) then
    some (s.bits,
      { s with bits := if clearOnExit then s.bits &&& not32 mask else s.bits,
               trace := s.trace ++ [Event.xEventGroupWaitBits mask] })
  else none

/-! ## Lifecycle -/

/-- `createInteractEG()`. -/
def createInteractEG (alloc : Nat) (s : State) : Nat × State :=
  let s1 :=
    if s.interactEG = 0 then
      let r := xEventGroupCreate alloc s
      { r.2 with interactEG := r.1 }
    else s
  if s1.interactEG ≠ 0 then (s1.interactEG, s1) else (0, s1)

/-- `deleteInteractEG()`. -/
def deleteInteractEG (s : State) : State :=
  { s with interactEG := 0, trace := s.trace ++ [Event.vEventGroupDelete] }

/-- The guard that opens every `init*` function,
`if (interactEG == NULL) if (createInteractEG() == NULL) return <failure>;`:
the flag is `true` when the function has to return its failure value. -/
def createFailed (alloc : Nat) (s : State) : Bool × State :=
  if s.interactEG = 0 then
    let r := createInteractEG alloc s
    (decide (r.1 = 0), r.2)
  else (false, s)

/-! ## Input drivers -/

/-- `onCapTouchISR()`. -/
def onCapTouchISR (m : Macros) (queued : Bool) (s : State) : State :=
  let r := xEventGroupSetBitsFromISR m.CAP_TOUCH_BIT queued s
  if r.1 then emit [Event.portYIELD_FROM_ISR] r.2 else r.2

/-- `onLimitSwitchISR()`. -/
def onLimitSwitchISR (m : Macros) (queued : Bool) (s : State) : State :=
  let r := xEventGroupSetBitsFromISR m.LIMIT_SWITCH_BIT queued s
  if r.1 then emit [Event.portYIELD_FROM_ISR] r.2 else r.2

/-- `initLimitSwitch(pin, triggerMode)`: the returned `int` and the state left behind. -/
def initLimitSwitch (m : Macros) (alloc : Nat) (pin : Nat) (triggerMode : Int)
    (s : State) : Int × State :=
  let g := createFailed alloc s
  if g.1 then (-1, g.2)
  else if triggerMode = m.RISING then
    (0, emit [Event.pinMode pin PinMode.INPUT_PULLDOWN,
              Event.attachInterrupt pin triggerMode] g.2)
  else if triggerMode = m.FALLING then
    (0, emit [Event.pinMode pin PinMode.INPUT_PULLUP,
              Event.attachInterrupt pin triggerMode] g.2)
  else (-1, g.2)

/-- The array `argv` that `initPhotoResistor` fills: each value widened to `uint32_t`. -/
def photoResistorArgv (pin threshold period : Nat) : List Nat :=
  [pin % 2 ^ 8 % 2 ^ 32, threshold % 2 ^ 16 % 2 ^ 32, period % 2 ^ 32]

/-- `initPhotoResistor(pin, threshold, period)`: `task` is the handle `xTaskCreate`
stores when it returns `pdPASS`, `none` when it does not. -/
def initPhotoResistor (alloc : Nat) (task : Option Nat) (pin threshold period : Nat)
    (s : State) : Nat × State :=
  let g := createFailed alloc s
  if g.1 then (0, g.2)
  else
    let s1 := emit [Event.xTaskCreate "PhotoResistorHandler"
                      (photoResistorArgv pin threshold period)] g.2
    match task with
    | some h => (h, s1)
    | none => (0, s1)

/-- One pass through the body of the `while (true)` of `handlePhotoResistor(argv)`:
`sample` is what `analogRead(pin)` returns. -/
def handlePhotoResistor_iter (m : Macros) (argv : List Nat) (sample : Nat) (s : State) :
    State :=
  let pin := argv.getD 0 0 % 2 ^ 8
  let threshold := argv.getD 1 0 % 2 ^ 16
  let period := argv.getD 2 0 / m.portTICK_PERIOD_MS
  let s1 := emit [Event.analogRead pin] s
  let s2 := if sample < threshold then xEventGroupSetBits m.PHOTO_RESIETOR_BIT s1 else s1
  emit [Event.vTaskDelayUntil period] s2

/-! ## Sound task -/

/-- The `while (woofSound.Playing)` loop of `handleSound`: `fills` is the number of times
the sample source still reports `Playing` when the condition is evaluated. -/
def playLoop : Nat → State → State
  | 0, s => s
  | fills + 1, s => playLoop fills (emit [Event.FillBuffer, Event.taskYIELD] s)

/-- One pass through the body of the `while (true)` of `handleSound`: `none` while the
task stays blocked in the wait. -/
def handleSound_cycle (m : Macros) (fills : Nat) (s : State) : Option State :=
  match xEventGroupWaitBits m.PHOTO_RESIETOR_BIT false false s with
  | none => none
  | some (curBits, s1) =>
    if curBits &&& m.PHOTO_RESIETOR_BIT ≠ 0 then
      let s2 := emit [Event.Play] s1
      let s3 := playLoop fills s2
      let s4 := emit [Event.StopAllSounds] s3
      some (xEventGroupClearBits m.PHOTO_RESIETOR_BIT s4)
    else some s1

/-! ## LED task -/

/-- The message `text` of `handleLED`. -/
def text : String := "Robot_Dog"

/-- The glyph `pattern` of `handleLED`. -/
def pattern : List Nat :=
  [0b00001100, 0b00011110, 0b00111110, 0b01111100,
   0b01111100, 0b00111110, 0b00011110, 0b00001100]

/-- `String::length()`, an `unsigned int`. -/
def length (t : String) : Nat := t.utf8ByteSize % 2 ^ 32

/-- The loop bound `8 * text.length() - 1`, computed in `unsigned int`. -/
def scrollBound (t : String) : Nat := (8 * length t % 2 ^ 32 + (2 ^ 32 - 1)) % 2 ^ 32

/-- The body of the scroll loop: one frame step. -/
def scrollFrame (period : Nat) : List Event :=
  [Event.clear, Event.scrollTextLeft, Event.drawText, Event.commit,
   Event.vTaskDelayUntil period]

/-- The loop `for (int i = 0; i < 8 * text.length() - 1; i++) ...` from counter value `i`
(a non-negative `int`, compared after conversion to `unsigned int`); `none` when `i++`
would overflow the `int`, which C++ leaves undefined. -/
def scrollLoop (bound period : Nat) (i : Nat) (s : State) : Option State :=
  if i % 2 ^ 32 < bound then
    if i + 1 < 2 ^ 31 then scrollLoop bound period (i + 1) (emit (scrollFrame period) s)
    else none
  else some s
termination_by 2 ^ 31 - i

/-- The statements `clear(); for (i < 8) setColumn(i, pattern[i]); commit();`. -/
def drawPattern (s : State) : State :=
  emit [Event.commit]
    ((List.range 8).foldl (fun acc i => emit [Event.setColumn i (pattern.getD i 0)] acc)
      (emit [Event.clear] s))

/-- One pass through the body of the `while (true)` of `handleLED`, for the message `t`:
`none` while the task stays blocked in the wait (or when the scroll counter overflows). -/
def handleLED_cycle (m : Macros) (t : String) (s : State) : Option State :=
  match xEventGroupWaitBits (m.CAP_TOUCH_BIT ||| m.LIMIT_SWITCH_BIT) false false s with
  | none => none
  | some (curBits, s1) =>
    if curBits &&& m.CAP_TOUCH_BIT ≠ 0 then
      let period := 100 / m.portTICK_PERIOD_MS
      match scrollLoop (scrollBound t) period 0 (emit [Event.setText t] s1) with
      | none => none
      | some s2 => some (xEventGroupClearBits m.CAP_TOUCH_BIT s2)
    else if curBits &&& m.LIMIT_SWITCH_BIT ≠ 0 then
      let s2 := drawPattern s1
      let s3 := emit [Event.vTaskDelay (500 / m.portTICK_PERIOD_MS)] s2
      some (xEventGroupClearBits m.LIMIT_SWITCH_BIT s3)
    else some s1

/-- The first `n` passes through the `while (true)` of `handleLED`, with nothing else
running in between; `none` when one of them stays blocked. -/
def handleLED_cycles (m : Macros) (t : String) : Nat → State → Option State
  | 0, s => some s
  | n + 1, s =>
    match handleLED_cycle m t s with
    | none => none
    | some s1 => handleLED_cycles m t n s1

/-- Total number of ticks asked of `vTaskDelay` in a trace. -/
def delayTicks : List Event → Nat
  | [] => 0
  | Event.vTaskDelay ticks :: rest => ticks + delayTicks rest
  | _ :: rest => delayTicks rest

/-- Number of scroll frame steps recorded in a trace. -/
def frameSteps (tr : List Event) : Nat := tr.count Event.scrollTextLeft

/-! ## The sound task statement by statement, next to the other tasks and ISRs -/

/-- Control points of `handleSound`: the statement the task executes next.  The task is
Idle at the first three, Playing at the other four. -/
inductive SoundPc
  | waitBits
  | testBits
  | play
  | testPlaying
  | fillBuffer
  | stopAllSounds
  | clearBits
  deriving DecidableEq, Repr

/-- The shared state together with the locals of `handleSound`: its control point,
`curBits`, `woofSound.Playing` and the number of sounds on the play list of `DacAudio`. -/
structure SoundSys where
  st : State
  pc : SoundPc
  curBits : Nat
  playing : Bool
  sessions : Nat
  deriving DecidableEq, Repr

/-- What can happen next: an ISR fires, the photo resistor task runs one iteration,
`handleLED` reaches one of its two `xEventGroupClearBits` calls, or `handleSound`
executes its next statement (`exhausted` tells whether a `FillBuffer` call uses up the
sample). -/
inductive Action
  | capTouchISR (queued : Bool)
  | limitSwitchISR (queued : Bool)
  | photoResistor (argv : List Nat) (sample : Nat)
  | ledClearTouch
  | ledClearLimit
  | sound (exhausted : Bool)
  deriving DecidableEq, Repr

/-- The next statement of `handleSound`; `none` while it is blocked in the wait. -/
def handleSound_step (m : Macros) (exhausted : Bool) (x : SoundSys) : Option SoundSys :=
  match x.pc with
  | SoundPc.waitBits =>
    match xEventGroupWaitBits m.PHOTO_RESIETOR_BIT false false x.st with
    | none => none
    | some (curBits, s1) => some { x with st := s1, curBits := curBits, pc := SoundPc.testBits }
  | SoundPc.testBits =>
    if x.curBits &&& m.PHOTO_RESIETOR_BIT ≠ 0 then some { x with pc := SoundPc.play }
    else some { x with pc := SoundPc.waitBits }
  | SoundPc.play =>
    some { x with st := emit [Event.Play] x.st, playing := true,
                  sessions := x.sessions + 1, pc := SoundPc.testPlaying }
  | SoundPc.testPlaying =>
    if x.playing then some { x with pc := SoundPc.fillBuffer }
    else some { x with pc := SoundPc.stopAllSounds }
  | SoundPc.fillBuffer =>
    some { x with st := emit [Event.FillBuffer, Event.taskYIELD] x.st,
                  playing := if exhausted then false else x.playing,
                  sessions := if exhausted then x.sessions - 1 else x.sessions,
                  pc := SoundPc.testPlaying }
  | SoundPc.stopAllSounds =>
    some { x with st := emit [Event.StopAllSounds] x.st, playing := false, sessions := 0,
                  pc := SoundPc.clearBits }
  | SoundPc.clearBits =>
    some { x with st := xEventGroupClearBits m.PHOTO_RESIETOR_BIT x.st,
                  pc := SoundPc.waitBits }

/-- One step of the whole system. -/
def step (m : Macros) (a : Action) (x : SoundSys) : Option SoundSys :=
  match a with
  | Action.capTouchISR queued => some { x with st := onCapTouchISR m queued x.st }
  | Action.limitSwitchISR queued => some { x with st := onLimitSwitchISR m queued x.st }
  | Action.photoResistor argv sample =>
    some { x with st := handlePhotoResistor_iter m argv sample x.st }
  | Action.ledClearTouch => some { x with st := xEventGroupClearBits m.CAP_TOUCH_BIT x.st }
  | Action.ledClearLimit => some { x with st := xEventGroupClearBits m.LIMIT_SWITCH_BIT x.st }
  | Action.sound exhausted => handleSound_step m exhausted x

/-- Run a schedule of actions; `none` when one of them is not enabled. -/
def run (m : Macros) : List Action → SoundSys → Option SoundSys
  | [], x => some x
  | a :: rest, x =>
    match step m a x with
    | none => none
    | some y => run m rest y

/-- The sound task as `initSound` starts it: about to wait, nothing playing; `curBits`
is not initialised. -/
def SoundSys.start (s : State) (curBits : Nat) : SoundSys :=
  { st := s, pc := SoundPc.waitBits, curBits := curBits, playing := false, sessions := 0 }

/-- The schedule in which `handleSound` runs one whole pass on its own, its loop
finding the sample still playing `fills + 1` times. -/
def soloPass (fills : Nat) : List Action :=
  [Action.sound false, Action.sound false, Action.sound false]
    ++ (List.replicate fills [Action.sound false, Action.sound false]).flatten
    ++ [Action.sound false, Action.sound true, Action.sound false, Action.sound false,
        Action.sound false]

theorem and_two_pow_ne_zero_iff (b i : Nat) : b &&& 2 ^ i ≠ 0 ↔ b.testBit i = true := by
  rw [Nat.and_comm, Nat.two_pow_and]
  cases h : b.testBit i <;> simp

theorem and_two_pow_eq_zero_iff (b i : Nat) : b &&& 2 ^ i = 0 ↔ b.testBit i = false := by
  rw [Nat.and_comm, Nat.two_pow_and]
  cases h : b.testBit i <;> simp

theorem testBit_not32 (mask j : Nat) :
    (not32 mask).testBit j = (decide (j < 32) && !mask.testBit j) := by
  unfold not32
  rw [Nat.testBit_xor, Nat.testBit_two_pow_sub_one, Nat.testBit_mod_two_pow]
  by_cases h : j < 32 <;> simp [h]

theorem or_flag_of_set (b i : Nat) (h : b.testBit i = true) : b ||| 2 ^ i = b := by
  apply Nat.eq_of_testBit_eq
  intro j
  rw [Nat.testBit_or, Nat.testBit_two_pow]
  by_cases hij : i = j
  · subst hij; simp [h]
  · simp [hij]

theorem testBit_clear_self (b i : Nat) :
    (b &&& not32 (2 ^ i)).testBit i = false := by
  rw [Nat.testBit_and, testBit_not32, Nat.testBit_two_pow_self]
  simp

theorem or_and_ne_zero (b f g : Nat) (h : b &&& g ≠ 0) : (b ||| f) &&& g ≠ 0 := by
  intro h0
  apply h
  apply Nat.eq_of_testBit_eq
  intro j
  have hj := congrArg (fun n => Nat.testBit n j) h0
  simp only [Nat.testBit_and, Nat.testBit_or, Nat.zero_testBit] at hj ⊢
  cases hb : b.testBit j <;> cases hg : g.testBit j <;> simp [hb, hg] at hj ⊢

theorem clear_flag_self (b f : Nat) (hf : IsFlag f) : (b &&& not32 f) &&& f = 0 := by
  obtain ⟨i, _, rfl⟩ := hf
  rw [and_two_pow_eq_zero_iff]
  exact testBit_clear_self b i

theorem clear_flag_other (b f g : Nat) (hf : IsFlag f) (hg : IsFlag g) (hne : f ≠ g) :
    (b &&& not32 f) &&& g = b &&& g := by
  obtain ⟨i, _, rfl⟩ := hf
  obtain ⟨j, hj, rfl⟩ := hg
  have hij : i ≠ j := fun h => hne (by rw [h])
  apply Nat.eq_of_testBit_eq
  intro k
  simp only [Nat.testBit_and, testBit_not32, Nat.testBit_two_pow]
  by_cases hjk : j = k
  · subst hjk
    simp [hj, hij]
  · simp [hjk]

theorem set_flag_idem (b f : Nat) (hf : IsFlag f) (h : b &&& f ≠ 0) : b ||| f = b := by
  obtain ⟨i, _, rfl⟩ := hf
  exact or_flag_of_set b i ((and_two_pow_ne_zero_iff b i).1 h)

theorem set_flag_self (b f : Nat) (hf : IsFlag f) : (b ||| f) &&& f ≠ 0 := by
  obtain ⟨i, _, rfl⟩ := hf
  rw [and_two_pow_ne_zero_iff, Nat.testBit_or, Nat.testBit_two_pow_self]
  simp

/-! ## Lifecycle and initialisation -/

theorem createInteractEG_of_live (alloc : Nat) (s : State) (h : s.interactEG ≠ 0) :
    createInteractEG alloc s = (s.interactEG, s) := by
  simp [createInteractEG, h]

theorem createInteractEG_handle (alloc : Nat) (s : State) :
    (createInteractEG alloc s).1 = (createInteractEG alloc s).2.interactEG := by
  unfold createInteractEG
  by_cases h : s.interactEG = 0
  · by_cases ha : alloc = 0 <;> simp [h, ha, xEventGroupCreate]
  · simp [h]

/-- C3: when a call to `createInteractEG` returns a non-null handle `h`, a second call
made right after it returns the same `h` and leaves the whole state as it was: the
global `interactEG` is unchanged and no call is added to the trace, so
`xEventGroupCreate` is not invoked again, whatever the allocator would have answered. -/
theorem c3_createInteractEG_twice (alloc1 alloc2 : Nat) (s : State) (h : Nat)
    (hret : (createInteractEG alloc1 s).1 = h) (hlive : h ≠ 0) :
    (createInteractEG alloc2 (createInteractEG alloc1 s).2).1 = h ∧
    (createInteractEG alloc2 (createInteractEG alloc1 s).2).2 = (createInteractEG alloc1 s).2 ∧
    (createInteractEG alloc2 (createInteractEG alloc1 s).2).2.interactEG = h ∧
    (createInteractEG alloc2 (createInteractEG alloc1 s).2).2.trace.count Event.xEventGroupCreate
      = (createInteractEG alloc1 s).2.trace.count Event.xEventGroupCreate := by
  have hg : (createInteractEG alloc1 s).2.interactEG ≠ 0 := by
    rw [← createInteractEG_handle, hret]; exact hlive
  rw [createInteractEG_of_live alloc2 _ hg]
  refine ⟨?_, rfl, ?_, rfl⟩
  · rw [← createInteractEG_handle, hret]
  · rw [← createInteractEG_handle, hret]

theorem c3_createInteractEG_twice_witness :
    (createInteractEG 7 { interactEG := 0, bits := 0, trace := [] }).1 = 7 ∧
    (createInteractEG 9 (createInteractEG 7 { interactEG := 0, bits := 0, trace := [] }).2).1
      = 7 :=
  ⟨by decide,
   (c3_createInteractEG_twice 7 9 { interactEG := 0, bits := 0, trace := [] } 7
      (by decide) (by decide)).1⟩

theorem createFailed_iff (alloc : Nat) (s : State) :
    (createFailed alloc s).1 = true ↔ s.interactEG = 0 ∧ alloc = 0 := by
  unfold createFailed createInteractEG
  by_cases h : s.interactEG = 0
  · by_cases ha : alloc = 0 <;> simp [h, ha, xEventGroupCreate]
  · simp [h]

theorem createFailed_trace (alloc : Nat) (s : State) :
    (createFailed alloc s).2.trace = s.trace ∨
    (createFailed alloc s).2.trace = s.trace ++ [Event.xEventGroupCreate] := by
  unfold createFailed createInteractEG
  by_cases h : s.interactEG = 0
  · by_cases ha : alloc = 0 <;> simp [h, ha, xEventGroupCreate]
  · simp [h]

/-- C4: for every pin and every trigger mode that is neither `RISING` nor `FALLING`,
`initLimitSwitch` returns `-1` (a failure status, not `0`); the only call it may add to
the trace is the `xEventGroupCreate` of the opening guard, so `attachInterrupt` is never
called (`onLimitSwitchISR` is not installed) and `pinMode` is never called. -/
theorem c4_initLimitSwitch_unsupported (m : Macros) (alloc pin : Nat) (triggerMode : Int)
    (s : State) (hr : triggerMode ≠ m.RISING) (hf : triggerMode ≠ m.FALLING) :
    (initLimitSwitch m alloc pin triggerMode s).1 = -1 ∧
    (initLimitSwitch m alloc pin triggerMode s).1 ≠ 0 ∧
    ((initLimitSwitch m alloc pin triggerMode s).2.trace = s.trace ∨
     (initLimitSwitch m alloc pin triggerMode s).2.trace
        = s.trace ++ [Event.xEventGroupCreate]) ∧
    (∀ p md, (initLimitSwitch m alloc pin triggerMode s).2.trace.count
        (Event.attachInterrupt p md) = s.trace.count (Event.attachInterrupt p md)) ∧
    (∀ p md, (initLimitSwitch m alloc pin triggerMode s).2.trace.count
        (Event.pinMode p md) = s.trace.count (Event.pinMode p md)) := by
  have hres : initLimitSwitch m alloc pin triggerMode s = (-1, (createFailed alloc s).2) := by
    unfold initLimitSwitch
    by_cases hg : (createFailed alloc s).1 = true <;> simp [hg, hr, hf]
  rw [hres]
  refine ⟨rfl, by simp, createFailed_trace alloc s, ?_, ?_⟩
  · intro p md
    rcases createFailed_trace alloc s with h | h <;> simp [h]
  · intro p md
    rcases createFailed_trace alloc s with h | h <;> simp [h]

theorem c4_initLimitSwitch_unsupported_witness :
    ((3 : Int) ≠ esp32.RISING ∧ (3 : Int) ≠ esp32.FALLING) ∧
    (initLimitSwitch esp32 7 5 3 { interactEG := 0, bits := 0, trace := [] }).1 = -1 :=
  ⟨by decide,
   (c4_initLimitSwitch_unsupported esp32 7 5 3 { interactEG := 0, bits := 0, trace := [] }
      (by decide) (by decide)).1⟩

/-- C5, as the claim states it, fails: with the register absent and the allocator
failing (supported mode `RISING`), and with the allocator succeeding but the
unsupported mode `3`, `initLimitSwitch` returns one and the same value `-1`. -/
theorem c5_statuses_coincide :
    (createFailed 0 { interactEG := 0, bits := 0, trace := [] }).1 = true ∧
    (createFailed 7 { interactEG := 0, bits := 0, trace := [] }).1 = false ∧
    ((3 : Int) ≠ esp32.RISING ∧ (3 : Int) ≠ esp32.FALLING) ∧
    (initLimitSwitch esp32 0 5 esp32.RISING { interactEG := 0, bits := 0, trace := [] }).1 = -1 ∧
    (initLimitSwitch esp32 7 5 3 { interactEG := 0, bits := 0, trace := [] }).1 = -1 ∧
    (initLimitSwitch esp32 0 5 esp32.RISING { interactEG := 0, bits := 0, trace := [] }).1
      = (initLimitSwitch esp32 7 5 3 { interactEG := 0, bits := 0, trace := [] }).1 := by
  decide

/-- C5, amended: `initLimitSwitch` reports two statuses, decided before it returns.  It
returns `0` exactly when the register is available (already live, or the allocator
succeeds) and the trigger mode is `RISING` or `FALLING`; in every other case, be it an
unsupported trigger mode or a failed `createInteractEG`, it returns the same value `-1`. -/
theorem c5_initLimitSwitch_status (m : Macros) (alloc pin : Nat) (triggerMode : Int)
    (s : State) :
    (initLimitSwitch m alloc pin triggerMode s).1
      = if (s.interactEG ≠ 0 ∨ alloc ≠ 0) ∧ (triggerMode = m.RISING ∨ triggerMode = m.FALLING)
        then 0 else -1 := by
  have hc := createFailed_iff alloc s
  unfold initLimitSwitch
  by_cases hg : (createFailed alloc s).1 = true
  · have h := hc.1 hg
    rw [if_pos hg, if_neg (by simp [h.1, h.2])]
  · have h : ¬ (s.interactEG = 0 ∧ alloc = 0) := fun h => hg (hc.2 h)
    have h2 : s.interactEG ≠ 0 ∨ alloc ≠ 0 := by
      by_cases h0 : s.interactEG = 0
      · right; intro ha; exact h ⟨h0, ha⟩
      · left; exact h0
    rw [if_neg hg]
    by_cases hr : triggerMode = m.RISING
    · rw [if_pos hr, if_pos ⟨h2, Or.inl hr⟩]
    · rw [if_neg hr]
      by_cases hf : triggerMode = m.FALLING
      · rw [if_pos hf, if_pos ⟨h2, Or.inr hf⟩]
      · rw [if_neg hf, if_neg (by simp [hr, hf])]

/-! ## Photo resistor poller -/

/-- C6: for every sample `v`, every 16-bit threshold `t` handed to `initPhotoResistor`
(widened into the 32-bit `argv` and cast back by the task) and every register state,
one polling iteration of `handlePhotoResistor` calls `xEventGroupSetBits` with
`PHOTO_RESIETOR_BIT` exactly when `v < t`: if `v < t` the register afterwards is the old
one with `PHOTO_RESIETOR_BIT` added, and if `v >= t` (in particular `v = t`) the register
is unchanged and no set call is made. -/
theorem c6_handlePhotoResistor_strict (m : Macros) (pin t period v : Nat) (s : State)
    (ht : t < 2 ^ 16) :
    (handlePhotoResistor_iter m (photoResistorArgv pin t period) v s).bits
      = (if v < t then s.bits ||| m.PHOTO_RESIETOR_BIT else s.bits) ∧
    (handlePhotoResistor_iter m (photoResistorArgv pin t period) v s).trace
      = s.trace ++ [Event.analogRead (pin % 2 ^ 8)]
          ++ (if v < t then [Event.xEventGroupSetBits m.PHOTO_RESIETOR_BIT] else [])
          ++ [Event.vTaskDelayUntil (period % 2 ^ 32 / m.portTICK_PERIOD_MS)] ∧
    (handlePhotoResistor_iter m (photoResistorArgv pin t period) v s).interactEG
      = s.interactEG := by
  have h8 : pin % 2 ^ 8 % 2 ^ 32 % 2 ^ 8 = pin % 2 ^ 8 := by omega
  have h16 : t % 2 ^ 16 % 2 ^ 32 % 2 ^ 16 = t := by omega
  simp only [Nat.reducePow] at h8 h16
  by_cases hv : v < t
  · simp [handlePhotoResistor_iter, photoResistorArgv, emit, xEventGroupSetBits, h8, h16, hv]
  · simp [handlePhotoResistor_iter, photoResistorArgv, emit, xEventGroupSetBits, h8, h16, hv]

theorem c6_handlePhotoResistor_strict_witness :
    (300 : Nat) < 2 ^ 16 ∧
    (handlePhotoResistor_iter esp32 (photoResistorArgv 34 300 50) 300
        { interactEG := 7, bits := 1, trace := [] }).bits
      = (if 300 < 300 then 1 ||| esp32.PHOTO_RESIETOR_BIT else 1) :=
  ⟨by decide,
   (c6_handlePhotoResistor_strict esp32 34 300 50 300
      { interactEG := 7, bits := 1, trace := [] } (by decide)).1⟩

/-! ## LED task -/

theorem emit_nil (s : State) : emit [] s = s := by
  simp [emit]

theorem emit_emit (es fs : List Event) (s : State) :
    emit fs (emit es s) = emit (es ++ fs) s := by
  simp [emit]

theorem and_or_ne_zero_left (b c l : Nat) (h : b &&& c ≠ 0) : b &&& (c ||| l) ≠ 0 := by
  intro h0
  apply h
  apply Nat.eq_of_testBit_eq
  intro j
  have hj := congrArg (fun n => Nat.testBit n j) h0
  simp only [Nat.testBit_and, Nat.testBit_or, Nat.zero_testBit] at hj ⊢
  cases hb : b.testBit j <;> cases hc : c.testBit j <;> simp [hb, hc] at hj ⊢

theorem and_or_ne_zero_right (b c l : Nat) (h : b &&& l ≠ 0) : b &&& (c ||| l) ≠ 0 := by
  rw [Nat.lor_comm]
  exact and_or_ne_zero_left b l c h

theorem scrollLoop_steps (bound period : Nat) (hb : bound < 2 ^ 31) :
    ∀ (k i : Nat) (s : State), i + k = bound →
      scrollLoop bound period i s
        = some (emit (List.replicate k (scrollFrame period)).flatten s) := by
  intro k
  induction k with
  | zero =>
    intro i s hik
    rw [scrollLoop]
    have h1 : ¬ i % 2 ^ 32 < bound := by omega
    rw [if_neg h1]
    simp [emit_nil]
  | succ k ih =>
    intro i s hik
    rw [scrollLoop]
    have h1 : i % 2 ^ 32 < bound := by omega
    have h2 : i + 1 < 2 ^ 31 := by omega
    rw [if_pos h1, if_pos h2, ih (i + 1) _ (by omega), emit_emit,
      List.replicate_succ, List.flatten_cons]

theorem scrollBound_eq (t : String) (hN : 0 < t.utf8ByteSize)
    (hb : 8 * t.utf8ByteSize - 1 < 2 ^ 31) : scrollBound t = 8 * t.utf8ByteSize - 1 := by
  unfold scrollBound length
  omega

theorem drawPattern_eq (s : State) :
    drawPattern s = emit [Event.clear, Event.setColumn 0 12, Event.setColumn 1 30,
      Event.setColumn 2 62, Event.setColumn 3 124, Event.setColumn 4 124,
      Event.setColumn 5 62, Event.setColumn 6 30, Event.setColumn 7 12, Event.commit] s := by
  simp [drawPattern, emit, pattern, List.range, List.range.loop]

theorem handleLED_cycle_touch (m : Macros) (t : String) (s : State)
    (hN : 0 < t.utf8ByteSize) (hb : 8 * t.utf8ByteSize - 1 < 2 ^ 31)
    (hset : s.bits &&& m.CAP_TOUCH_BIT ≠ 0) :
    handleLED_cycle m t s = some
      { interactEG := s.interactEG,
        bits := s.bits &&& not32 m.CAP_TOUCH_BIT,
        trace := s.trace
          ++ [Event.xEventGroupWaitBits (m.CAP_TOUCH_BIT ||| m.LIMIT_SWITCH_BIT),
              Event.setText t]
          ++ (List.replicate (8 * t.utf8ByteSize - 1)
                (scrollFrame (100 / m.portTICK_PERIOD_MS))).flatten
          ++ [Event.xEventGroupClearBits m.CAP_TOUCH_BIT] } := by
  have hw := and_or_ne_zero_left s.bits m.CAP_TOUCH_BIT m.LIMIT_SWITCH_BIT hset
  have hloop := scrollLoop_steps (scrollBound t) (100 / m.portTICK_PERIOD_MS)
    (by rw [scrollBound_eq t hN hb]; exact hb) (8 * t.utf8ByteSize - 1) 0
  simp only [handleLED_cycle, xEventGroupWaitBits, Bool.false_eq_true, if_false, hw,
    ne_eq, not_false_eq_true, if_true, hset]
  rw [hloop _ (by rw [scrollBound_eq t hN hb]; omega)]
  simp [emit, xEventGroupClearBits]

theorem handleLED_cycle_limit (m : Macros) (t : String) (s : State)
    (hc : s.bits &&& m.CAP_TOUCH_BIT = 0) (hl : s.bits &&& m.LIMIT_SWITCH_BIT ≠ 0) :
    handleLED_cycle m t s = some
      { interactEG := s.interactEG,
        bits := s.bits &&& not32 m.LIMIT_SWITCH_BIT,
        trace := s.trace
          ++ [Event.xEventGroupWaitBits (m.CAP_TOUCH_BIT ||| m.LIMIT_SWITCH_BIT),
              Event.clear, Event.setColumn 0 12, Event.setColumn 1 30,
              Event.setColumn 2 62, Event.setColumn 3 124, Event.setColumn 4 124,
              Event.setColumn 5 62, Event.setColumn 6 30, Event.setColumn 7 12,
              Event.commit,
              Event.vTaskDelay (500 / m.portTICK_PERIOD_MS),
              Event.xEventGroupClearBits m.LIMIT_SWITCH_BIT] } := by
  have hw := and_or_ne_zero_right s.bits m.CAP_TOUCH_BIT m.LIMIT_SWITCH_BIT hl
  simp only [handleLED_cycle, xEventGroupWaitBits, Bool.false_eq_true, if_false, hw,
    ne_eq, not_false_eq_true, if_true, hc, hl, not_true_eq_false, drawPattern_eq]
  simp [emit, xEventGroupClearBits]

theorem count_frames (e : Event) (period k : Nat) :
    List.count e (List.replicate k (scrollFrame period)).flatten
      = k * List.count e (scrollFrame period) := by
  induction k with
  | zero => simp
  | succ k ih =>
    rw [List.replicate_succ, List.flatten_cons, List.count_append, ih]
    ring

theorem text_size : text.utf8ByteSize = 9 := by decide

/-- C1: whenever both `CAP_TOUCH_BIT` and `LIMIT_SWITCH_BIT` are set as the wait of
`handleLED` returns, that wake cycle completes, runs the scrolling-text response (the
message is set, 71 frames are scrolled, `CAP_TOUCH_BIT` is cleared) and nothing of the
static-glyph response (no `setColumn`, no `vTaskDelay`, no clearing of
`LIMIT_SWITCH_BIT`); at its end `CAP_TOUCH_BIT` is clear and `LIMIT_SWITCH_BIT` is still
set.  The cycle is run with no other task or ISR interleaved. -/
theorem c1_touch_served_limit_kept (m : Macros) (s : State)
    (hC : IsFlag m.CAP_TOUCH_BIT) (hL : IsFlag m.LIMIT_SWITCH_BIT)
    (hne : m.CAP_TOUCH_BIT ≠ m.LIMIT_SWITCH_BIT)
    (hc : s.bits &&& m.CAP_TOUCH_BIT ≠ 0) (hl : s.bits &&& m.LIMIT_SWITCH_BIT ≠ 0) :
    ∃ s1, handleLED_cycle m text s = some s1 ∧
      s1.trace = s.trace
        ++ [Event.xEventGroupWaitBits (m.CAP_TOUCH_BIT ||| m.LIMIT_SWITCH_BIT),
            Event.setText text]
        ++ (List.replicate 71 (scrollFrame (100 / m.portTICK_PERIOD_MS))).flatten
        ++ [Event.xEventGroupClearBits m.CAP_TOUCH_BIT] ∧
      frameSteps s1.trace = frameSteps s.trace + 71 ∧
      (∀ c v, s1.trace.count (Event.setColumn c v) = s.trace.count (Event.setColumn c v)) ∧
      (∀ n, s1.trace.count (Event.vTaskDelay n) = s.trace.count (Event.vTaskDelay n)) ∧
      s1.trace.count (Event.xEventGroupClearBits m.LIMIT_SWITCH_BIT)
        = s.trace.count (Event.xEventGroupClearBits m.LIMIT_SWITCH_BIT) ∧
      s1.bits &&& m.CAP_TOUCH_BIT = 0 ∧
      s1.bits &&& m.LIMIT_SWITCH_BIT ≠ 0 := by
  have h := handleLED_cycle_touch m text s (by rw [text_size]; decide)
    (by rw [text_size]; decide) hc
  rw [text_size] at h
  refine ⟨_, h, rfl, ?_, ?_, ?_, ?_, ?_, ?_⟩
  · simp only [frameSteps, List.count_append, count_frames]
    simp [scrollFrame]
  · intro c v
    simp only [List.count_append, count_frames]
    simp [scrollFrame]
  · intro n
    simp only [List.count_append, count_frames]
    simp [scrollFrame]
  · have : m.LIMIT_SWITCH_BIT ≠ m.CAP_TOUCH_BIT := fun h => hne h.symm
    simp only [List.count_append, count_frames]
    simp [scrollFrame, this]
  · exact clear_flag_self _ _ hC
  · show (s.bits &&& not32 m.CAP_TOUCH_BIT) &&& m.LIMIT_SWITCH_BIT ≠ 0
    rw [clear_flag_other _ _ _ hC hL hne]
    exact hl

theorem c1_touch_served_limit_kept_witness :
    ∃ s1, handleLED_cycle esp32 text { interactEG := 7, bits := 3, trace := [] } = some s1 ∧
      s1.bits &&& esp32.CAP_TOUCH_BIT = 0 ∧ s1.bits &&& esp32.LIMIT_SWITCH_BIT ≠ 0 := by
  obtain ⟨s1, h1, _, _, _, _, _, h7, h8⟩ :=
    c1_touch_served_limit_kept esp32 { interactEG := 7, bits := 3, trace := [] }
      ⟨0, by decide, by decide⟩ ⟨1, by decide, by decide⟩ (by decide) (by decide) (by decide)
  exact ⟨s1, h1, h7, h8⟩

/-- C2: for every non-empty message of `N` bytes with `8N - 1 < 2^31`, the scroll loop
of `handleLED`, whose bound `8 * text.length() - 1` is computed in 32-bit unsigned
arithmetic and whose `int` counter starts at `0`, terminates after executing its body
(clear, scrollTextLeft, drawText, commit, periodic delay) exactly `8N - 1` times, and a
wake cycle that finds `CAP_TOUCH_BIT` set runs exactly these frames and then clears
`CAP_TOUCH_BIT`; for the message "Robot_Dog" of the source that is 71 frame steps. -/
theorem c2_scroll_frame_count (m : Macros) (t : String) (s : State)
    (hN : 0 < t.utf8ByteSize) (hb : 8 * t.utf8ByteSize - 1 < 2 ^ 31)
    (hC : IsFlag m.CAP_TOUCH_BIT) (hc : s.bits &&& m.CAP_TOUCH_BIT ≠ 0) :
    scrollLoop (scrollBound t) (100 / m.portTICK_PERIOD_MS) 0 s
      = some (emit (List.replicate (8 * t.utf8ByteSize - 1)
          (scrollFrame (100 / m.portTICK_PERIOD_MS))).flatten s) ∧
    (∃ s1, handleLED_cycle m t s = some s1 ∧
      s1.trace = s.trace
        ++ [Event.xEventGroupWaitBits (m.CAP_TOUCH_BIT ||| m.LIMIT_SWITCH_BIT),
            Event.setText t]
        ++ (List.replicate (8 * t.utf8ByteSize - 1)
              (scrollFrame (100 / m.portTICK_PERIOD_MS))).flatten
        ++ [Event.xEventGroupClearBits m.CAP_TOUCH_BIT] ∧
      frameSteps s1.trace = frameSteps s.trace + (8 * t.utf8ByteSize - 1) ∧
      s1.bits &&& m.CAP_TOUCH_BIT = 0) ∧
    (∃ s2, handleLED_cycle m text s = some s2 ∧
      s2.trace = s.trace
        ++ [Event.xEventGroupWaitBits (m.CAP_TOUCH_BIT ||| m.LIMIT_SWITCH_BIT),
            Event.setText "Robot_Dog"]
        ++ (List.replicate 71 (scrollFrame (100 / m.portTICK_PERIOD_MS))).flatten
        ++ [Event.xEventGroupClearBits m.CAP_TOUCH_BIT] ∧
      frameSteps s2.trace = frameSteps s.trace + 71 ∧
      s2.bits &&& m.CAP_TOUCH_BIT = 0) := by
  refine ⟨?_, ⟨_, handleLED_cycle_touch m t s hN hb hc, rfl, ?_, ?_⟩, ?_⟩
  · exact scrollLoop_steps (scrollBound t) (100 / m.portTICK_PERIOD_MS)
      (by rw [scrollBound_eq t hN hb]; exact hb) (8 * t.utf8ByteSize - 1) 0 s
      (by rw [scrollBound_eq t hN hb]; omega)
  · simp only [frameSteps, List.count_append, count_frames]
    simp [scrollFrame]
  · exact clear_flag_self _ _ hC
  · have h := handleLED_cycle_touch m text s (by rw [text_size]; decide)
      (by rw [text_size]; decide) hc
    rw [text_size] at h
    refine ⟨_, h, rfl, ?_, ?_⟩
    · simp only [frameSteps, List.count_append, count_frames]
      simp [scrollFrame]
    · exact clear_flag_self _ _ hC

theorem c2_scroll_frame_count_witness :
    (0 < "Robot_Dog".utf8ByteSize ∧ 8 * "Robot_Dog".utf8ByteSize - 1 < 2 ^ 31) ∧
    ∃ s1, handleLED_cycle esp32 "Robot_Dog" { interactEG := 7, bits := 1, trace := [] }
        = some s1 ∧
      frameSteps s1.trace = 8 * "Robot_Dog".utf8ByteSize - 1 ∧
      s1.bits &&& esp32.CAP_TOUCH_BIT = 0 := by
  obtain ⟨_, ⟨s1, h1, _, h3, h4⟩, _⟩ :=
    c2_scroll_frame_count esp32 "Robot_Dog" { interactEG := 7, bits := 1, trace := [] }
      (by decide) (by decide) ⟨0, by decide, by decide⟩ (by decide)
  exact ⟨by decide, s1, h1, by simpa [frameSteps] using h3, h4⟩

theorem delayTicks_append (tr es : List Event) :
    delayTicks (tr ++ es) = delayTicks tr + delayTicks es := by
  induction tr with
  | nil => simp [delayTicks]
  | cons e rest ih =>
    cases e <;> simp [delayTicks, ih, Nat.add_assoc]

/-- C10: in every wake cycle of `handleLED` that services LIMIT (`LIMIT_SWITCH_BIT` set,
`CAP_TOUCH_BIT` clear) the glyph is drawn and committed, then the task delays for
`500 / portTICK_PERIOD_MS` ticks of `portTICK_PERIOD_MS` ms each, which is exactly
500 ms, and only after that hold is `LIMIT_SWITCH_BIT` cleared.  The tick period is one
that divides 500, as the 1 ms tick of the ESP32 Arduino core does. -/
theorem c10_limit_hold (m : Macros) (t : String) (s : State)
    (hL : IsFlag m.LIMIT_SWITCH_BIT) (hP : m.portTICK_PERIOD_MS ∣ 500)
    (hc : s.bits &&& m.CAP_TOUCH_BIT = 0) (hl : s.bits &&& m.LIMIT_SWITCH_BIT ≠ 0) :
    ∃ s1, handleLED_cycle m t s = some s1 ∧
      s1.trace = s.trace
        ++ [Event.xEventGroupWaitBits (m.CAP_TOUCH_BIT ||| m.LIMIT_SWITCH_BIT)]
        ++ [Event.clear, Event.setColumn 0 0b00001100, Event.setColumn 1 0b00011110,
            Event.setColumn 2 0b00111110, Event.setColumn 3 0b01111100,
            Event.setColumn 4 0b01111100, Event.setColumn 5 0b00111110,
            Event.setColumn 6 0b00011110, Event.setColumn 7 0b00001100, Event.commit]
        ++ [Event.vTaskDelay (500 / m.portTICK_PERIOD_MS)]
        ++ [Event.xEventGroupClearBits m.LIMIT_SWITCH_BIT] ∧
      delayTicks s1.trace = delayTicks s.trace + 500 / m.portTICK_PERIOD_MS ∧
      (delayTicks s1.trace - delayTicks s.trace) * m.portTICK_PERIOD_MS = 500 ∧
      s1.bits &&& m.LIMIT_SWITCH_BIT = 0 := by
  have hd : delayTicks (s.trace
        ++ [Event.xEventGroupWaitBits (m.CAP_TOUCH_BIT ||| m.LIMIT_SWITCH_BIT),
            Event.clear, Event.setColumn 0 12, Event.setColumn 1 30,
            Event.setColumn 2 62, Event.setColumn 3 124, Event.setColumn 4 124,
            Event.setColumn 5 62, Event.setColumn 6 30, Event.setColumn 7 12,
            Event.commit,
            Event.vTaskDelay (500 / m.portTICK_PERIOD_MS),
            Event.xEventGroupClearBits m.LIMIT_SWITCH_BIT])
      = delayTicks s.trace + 500 / m.portTICK_PERIOD_MS := by
    rw [delayTicks_append]
    simp [delayTicks]
  refine ⟨_, handleLED_cycle_limit m t s hc hl, by simp, hd, ?_, ?_⟩
  · rw [hd, Nat.add_sub_cancel_left]
    exact Nat.div_mul_cancel hP
  · exact clear_flag_self _ _ hL

theorem c10_limit_hold_witness :
    esp32.portTICK_PERIOD_MS ∣ 500 ∧
    ∃ s1, handleLED_cycle esp32 text { interactEG := 7, bits := 2, trace := [] } = some s1 ∧
      delayTicks s1.trace = 500 ∧
      (delayTicks s1.trace - 0) * esp32.portTICK_PERIOD_MS = 500 ∧
      s1.bits &&& esp32.LIMIT_SWITCH_BIT = 0 := by
  obtain ⟨s1, h1, _, h3, h4, h5⟩ :=
    c10_limit_hold esp32 text { interactEG := 7, bits := 2, trace := [] }
      ⟨1, by decide, by decide⟩ (by decide) (by decide) (by decide)
  exact ⟨by decide, s1, h1, by simpa [delayTicks, esp32] using h3, h4, h5⟩

/-! ## Producers only add bits, consumers only remove their own -/

theorem onCapTouchISR_bits (m : Macros) (q : Bool) (s : State) :
    (onCapTouchISR m q s).bits = if q then s.bits ||| m.CAP_TOUCH_BIT else s.bits := by
  cases q <;> simp [onCapTouchISR, xEventGroupSetBitsFromISR, emit]

theorem onLimitSwitchISR_bits (m : Macros) (q : Bool) (s : State) :
    (onLimitSwitchISR m q s).bits = if q then s.bits ||| m.LIMIT_SWITCH_BIT else s.bits := by
  cases q <;> simp [onLimitSwitchISR, xEventGroupSetBitsFromISR, emit]

theorem handlePhotoResistor_iter_bits (m : Macros) (argv : List Nat) (v : Nat) (s : State) :
    (handlePhotoResistor_iter m argv v s).bits
      = if v < argv.getD 1 0 % 2 ^ 16 then s.bits ||| m.PHOTO_RESIETOR_BIT else s.bits := by
  by_cases h : v < argv.getD 1 0 % 2 ^ 16
  · simp only [handlePhotoResistor_iter, emit, xEventGroupSetBits, if_pos h]
  · simp only [handlePhotoResistor_iter, emit, xEventGroupSetBits, if_neg h]

theorem iterate_set_bits (f : State → State) (mask : Nat)
    (hf : ∀ s, (f s).bits = s.bits ||| mask) (k : Nat) (s : State) :
    (Nat.iterate f (k + 1) s).bits = s.bits ||| mask := by
  induction k with
  | zero => simp [hf]
  | succ k ih =>
    rw [Function.iterate_succ_apply', hf, ih, Nat.lor_assoc, Nat.or_self]

theorem and_or_eq_zero (b c l : Nat) (hc : b &&& c = 0) (hl : b &&& l = 0) :
    b &&& (c ||| l) = 0 := by
  rw [Nat.and_or_distrib_left, hc, hl]
  rfl

theorem handleLED_cycle_blocked (m : Macros) (t : String) (s : State)
    (hc : s.bits &&& m.CAP_TOUCH_BIT = 0) (hl : s.bits &&& m.LIMIT_SWITCH_BIT = 0) :
    handleLED_cycle m t s = none := by
  have h := and_or_eq_zero _ _ _ hc hl
  simp [handleLED_cycle, xEventGroupWaitBits, h]

theorem handleSound_cycle_blocked (m : Macros) (fills : Nat) (s : State)
    (hp : s.bits &&& m.PHOTO_RESIETOR_BIT = 0) : handleSound_cycle m fills s = none := by
  simp [handleSound_cycle, xEventGroupWaitBits, hp]

theorem playLoop_eq (fills : Nat) (s : State) :
    playLoop fills s
      = emit (List.replicate fills [Event.FillBuffer, Event.taskYIELD]).flatten s := by
  induction fills generalizing s with
  | zero => simp [playLoop, emit_nil]
  | succ n ih =>
    rw [playLoop, ih, emit_emit, List.replicate_succ, List.flatten_cons]

theorem handleSound_cycle_play (m : Macros) (fills : Nat) (s : State)
    (hp : s.bits &&& m.PHOTO_RESIETOR_BIT ≠ 0) :
    handleSound_cycle m fills s = some
      { interactEG := s.interactEG,
        bits := s.bits &&& not32 m.PHOTO_RESIETOR_BIT,
        trace := s.trace
          ++ [Event.xEventGroupWaitBits m.PHOTO_RESIETOR_BIT, Event.Play]
          ++ (List.replicate fills [Event.FillBuffer, Event.taskYIELD]).flatten
          ++ [Event.StopAllSounds, Event.xEventGroupClearBits m.PHOTO_RESIETOR_BIT] } := by
  simp only [handleSound_cycle, xEventGroupWaitBits, Bool.false_eq_true, if_false, hp,
    ne_eq, not_false_eq_true, if_true, playLoop_eq]
  simp [emit, xEventGroupClearBits]

theorem handleLED_cycle_keeps_touch_clear (m : Macros) (s s1 : State)
    (hC : IsFlag m.CAP_TOUCH_BIT) (hL : IsFlag m.LIMIT_SWITCH_BIT)
    (hne : m.CAP_TOUCH_BIT ≠ m.LIMIT_SWITCH_BIT)
    (hc : s.bits &&& m.CAP_TOUCH_BIT = 0) (h : handleLED_cycle m text s = some s1) :
    s1.bits &&& m.CAP_TOUCH_BIT = 0 ∧
    s1.trace.count (Event.xEventGroupClearBits m.CAP_TOUCH_BIT)
      = s.trace.count (Event.xEventGroupClearBits m.CAP_TOUCH_BIT) := by
  by_cases hl : s.bits &&& m.LIMIT_SWITCH_BIT = 0
  · rw [handleLED_cycle_blocked m text s hc hl] at h
    exact absurd h (by simp)
  · rw [handleLED_cycle_limit m text s hc hl] at h
    injection h with h
    subst h
    refine ⟨?_, ?_⟩
    · show (s.bits &&& not32 m.LIMIT_SWITCH_BIT) &&& m.CAP_TOUCH_BIT = 0
      rw [clear_flag_other _ _ _ hL hC (fun e => hne e.symm)]
      exact hc
    · simp [List.count_append, hne]

theorem handleLED_cycle_keeps_limit_clear (m : Macros) (s s1 : State)
    (hC : IsFlag m.CAP_TOUCH_BIT) (hL : IsFlag m.LIMIT_SWITCH_BIT)
    (hne : m.CAP_TOUCH_BIT ≠ m.LIMIT_SWITCH_BIT)
    (hl : s.bits &&& m.LIMIT_SWITCH_BIT = 0) (h : handleLED_cycle m text s = some s1) :
    s1.bits &&& m.LIMIT_SWITCH_BIT = 0 ∧
    s1.trace.count (Event.xEventGroupClearBits m.LIMIT_SWITCH_BIT)
      = s.trace.count (Event.xEventGroupClearBits m.LIMIT_SWITCH_BIT) := by
  by_cases hc : s.bits &&& m.CAP_TOUCH_BIT = 0
  · rw [handleLED_cycle_blocked m text s hc hl] at h
    exact absurd h (by simp)
  · rw [handleLED_cycle_touch m text s (by rw [text_size]; decide)
      (by rw [text_size]; decide) hc] at h
    injection h with h
    subst h
    refine ⟨?_, ?_⟩
    · show (s.bits &&& not32 m.CAP_TOUCH_BIT) &&& m.LIMIT_SWITCH_BIT = 0
      rw [clear_flag_other _ _ _ hC hL hne]
      exact hl
    · simp only [List.count_append, count_frames]
      simp [scrollFrame, hne, Ne.symm hne, List.count_cons]

theorem handleLED_cycles_keep_touch_clear (m : Macros)
    (hC : IsFlag m.CAP_TOUCH_BIT) (hL : IsFlag m.LIMIT_SWITCH_BIT)
    (hne : m.CAP_TOUCH_BIT ≠ m.LIMIT_SWITCH_BIT) :
    ∀ (n : Nat) (s s2 : State), s.bits &&& m.CAP_TOUCH_BIT = 0 →
      handleLED_cycles m text n s = some s2 →
      s2.trace.count (Event.xEventGroupClearBits m.CAP_TOUCH_BIT)
        = s.trace.count (Event.xEventGroupClearBits m.CAP_TOUCH_BIT) := by
  intro n
  induction n with
  | zero =>
    intro s s2 _ h
    simp only [handleLED_cycles, Option.some.injEq] at h
    rw [h]
  | succ n ih =>
    intro s s2 hc h
    rw [handleLED_cycles] at h
    cases h1 : handleLED_cycle m text s with
    | none => rw [h1] at h; exact absurd h (by simp)
    | some s1 =>
      rw [h1] at h
      have hk := handleLED_cycle_keeps_touch_clear m s s1 hC hL hne hc h1
      rw [ih s1 s2 hk.1 h, hk.2]

theorem handleLED_cycles_keep_limit_clear (m : Macros)
    (hC : IsFlag m.CAP_TOUCH_BIT) (hL : IsFlag m.LIMIT_SWITCH_BIT)
    (hne : m.CAP_TOUCH_BIT ≠ m.LIMIT_SWITCH_BIT) :
    ∀ (n : Nat) (s s2 : State), s.bits &&& m.LIMIT_SWITCH_BIT = 0 →
      handleLED_cycles m text n s = some s2 →
      s2.trace.count (Event.xEventGroupClearBits m.LIMIT_SWITCH_BIT)
        = s.trace.count (Event.xEventGroupClearBits m.LIMIT_SWITCH_BIT) := by
  intro n
  induction n with
  | zero =>
    intro s s2 _ h
    simp only [handleLED_cycles, Option.some.injEq] at h
    rw [h]
  | succ n ih =>
    intro s s2 hl h
    rw [handleLED_cycles] at h
    cases h1 : handleLED_cycle m text s with
    | none => rw [h1] at h; exact absurd h (by simp)
    | some s1 =>
      rw [h1] at h
      have hk := handleLED_cycle_keeps_limit_clear m s s1 hC hL hne hl h1
      rw [ih s1 s2 hk.1 h, hk.2]

theorem wait_blocked (mask : Nat) (s : State) (h : s.bits &&& mask = 0) :
    xEventGroupWaitBits mask false false s = none := by
  simp [xEventGroupWaitBits, h]

theorem touch_served_once (m : Macros) (s : State)
    (hC : IsFlag m.CAP_TOUCH_BIT) (hL : IsFlag m.LIMIT_SWITCH_BIT)
    (hne : m.CAP_TOUCH_BIT ≠ m.LIMIT_SWITCH_BIT) (hc : s.bits &&& m.CAP_TOUCH_BIT ≠ 0) :
    ∃ s1, handleLED_cycle m text s = some s1 ∧
      s1.trace.count (Event.xEventGroupClearBits m.CAP_TOUCH_BIT)
        = s.trace.count (Event.xEventGroupClearBits m.CAP_TOUCH_BIT) + 1 ∧
      s1.bits &&& m.CAP_TOUCH_BIT = 0 ∧
      xEventGroupWaitBits m.CAP_TOUCH_BIT false false s1 = none ∧
      ∀ n s2, handleLED_cycles m text n s1 = some s2 →
        s2.trace.count (Event.xEventGroupClearBits m.CAP_TOUCH_BIT)
          = s1.trace.count (Event.xEventGroupClearBits m.CAP_TOUCH_BIT) := by
  have h := handleLED_cycle_touch m text s (by rw [text_size]; decide)
    (by rw [text_size]; decide) hc
  have hclr : (s.bits &&& not32 m.CAP_TOUCH_BIT) &&& m.CAP_TOUCH_BIT = 0 :=
    clear_flag_self _ _ hC
  refine ⟨_, h, ?_, hclr, wait_blocked _ _ hclr, ?_⟩
  · simp only [List.count_append, count_frames]
    simp [scrollFrame]
  · intro n s2 h2
    exact handleLED_cycles_keep_touch_clear m hC hL hne n _ s2 hclr h2

theorem handleLED_cycle_touch_ex (m : Macros) (s : State)
    (hc : s.bits &&& m.CAP_TOUCH_BIT ≠ 0) :
    ∃ s1, handleLED_cycle m text s = some s1 ∧
      s1.bits = s.bits &&& not32 m.CAP_TOUCH_BIT ∧
      s1.trace = s.trace
        ++ [Event.xEventGroupWaitBits (m.CAP_TOUCH_BIT ||| m.LIMIT_SWITCH_BIT),
            Event.setText text]
        ++ (List.replicate 71 (scrollFrame (100 / m.portTICK_PERIOD_MS))).flatten
        ++ [Event.xEventGroupClearBits m.CAP_TOUCH_BIT] := by
  have h := handleLED_cycle_touch m text s (by rw [text_size]; decide)
    (by rw [text_size]; decide) hc
  rw [text_size] at h
  exact ⟨_, h, rfl, rfl⟩

theorem handleLED_cycle_limit_ex (m : Macros) (s : State)
    (hc : s.bits &&& m.CAP_TOUCH_BIT = 0) (hl : s.bits &&& m.LIMIT_SWITCH_BIT ≠ 0) :
    ∃ s1, handleLED_cycle m text s = some s1 ∧
      s1.bits = s.bits &&& not32 m.LIMIT_SWITCH_BIT ∧
      s1.trace.count (Event.xEventGroupClearBits m.LIMIT_SWITCH_BIT)
        = s.trace.count (Event.xEventGroupClearBits m.LIMIT_SWITCH_BIT) + 1 :=
  ⟨_, handleLED_cycle_limit m text s hc hl, rfl, by simp [List.count_append]⟩

theorem limit_served_once (m : Macros) (s : State)
    (hC : IsFlag m.CAP_TOUCH_BIT) (hL : IsFlag m.LIMIT_SWITCH_BIT)
    (hne : m.CAP_TOUCH_BIT ≠ m.LIMIT_SWITCH_BIT) (hl : s.bits &&& m.LIMIT_SWITCH_BIT ≠ 0) :
    ∃ n s1, n ≤ 2 ∧ handleLED_cycles m text n s = some s1 ∧
      s1.trace.count (Event.xEventGroupClearBits m.LIMIT_SWITCH_BIT)
        = s.trace.count (Event.xEventGroupClearBits m.LIMIT_SWITCH_BIT) + 1 ∧
      s1.bits &&& m.LIMIT_SWITCH_BIT = 0 ∧
      xEventGroupWaitBits m.LIMIT_SWITCH_BIT false false s1 = none ∧
      ∀ k s2, handleLED_cycles m text k s1 = some s2 →
        s2.trace.count (Event.xEventGroupClearBits m.LIMIT_SWITCH_BIT)
          = s1.trace.count (Event.xEventGroupClearBits m.LIMIT_SWITCH_BIT) := by
  by_cases hc : s.bits &&& m.CAP_TOUCH_BIT = 0
  · obtain ⟨s1, h1, hb1, hn1⟩ := handleLED_cycle_limit_ex m s hc hl
    have hclr : s1.bits &&& m.LIMIT_SWITCH_BIT = 0 := by
      rw [hb1]; exact clear_flag_self _ _ hL
    refine ⟨1, s1, by decide, ?_, hn1, hclr, wait_blocked _ _ hclr, ?_⟩
    · simp only [handleLED_cycles, h1]
    · intro k s2 h2
      exact handleLED_cycles_keep_limit_clear m hC hL hne k s1 s2 hclr h2
  · obtain ⟨s1, h1, hb1, ht1⟩ := handleLED_cycle_touch_ex m s hc
    have hc1 : s1.bits &&& m.CAP_TOUCH_BIT = 0 := by
      rw [hb1]; exact clear_flag_self _ _ hC
    have hl1 : s1.bits &&& m.LIMIT_SWITCH_BIT ≠ 0 := by
      rw [hb1, clear_flag_other _ _ _ hC hL hne]
      exact hl
    obtain ⟨s2, h2, hb2, hn2⟩ := handleLED_cycle_limit_ex m s1 hc1 hl1
    have hclr : s2.bits &&& m.LIMIT_SWITCH_BIT = 0 := by
      rw [hb2]; exact clear_flag_self _ _ hL
    refine ⟨2, s2, by decide, ?_, ?_, hclr, wait_blocked _ _ hclr, ?_⟩
    · simp only [handleLED_cycles, h1, h2]
    · rw [hn2, ht1]
      simp only [List.count_append, count_frames]
      simp [scrollFrame, hne, Ne.symm hne, List.count_cons]
    · intro k s3 h3
      exact handleLED_cycles_keep_limit_clear m hC hL hne k s2 s3 hclr h3

theorem photo_served_once (m : Macros) (fills : Nat) (s : State)
    (hP : IsFlag m.PHOTO_RESIETOR_BIT) (hp : s.bits &&& m.PHOTO_RESIETOR_BIT ≠ 0) :
    ∃ s1, handleSound_cycle m fills s = some s1 ∧
      s1.trace.count Event.Play = s.trace.count Event.Play + 1 ∧
      s1.trace.count (Event.xEventGroupClearBits m.PHOTO_RESIETOR_BIT)
        = s.trace.count (Event.xEventGroupClearBits m.PHOTO_RESIETOR_BIT) + 1 ∧
      s1.bits &&& m.PHOTO_RESIETOR_BIT = 0 ∧
      ∀ fills2, handleSound_cycle m fills2 s1 = none := by
  have hclr : (s.bits &&& not32 m.PHOTO_RESIETOR_BIT) &&& m.PHOTO_RESIETOR_BIT = 0 :=
    clear_flag_self _ _ hP
  have hcount : ∀ e : Event, e ≠ Event.FillBuffer → e ≠ Event.taskYIELD →
      List.count e (List.replicate fills [Event.FillBuffer, Event.taskYIELD]).flatten = 0 := by
    intro e h1 h2
    induction fills with
    | zero => simp
    | succ n ih =>
      rw [List.replicate_succ, List.flatten_cons, List.count_append, ih]
      simp [List.count_cons, Ne.symm h1, Ne.symm h2]
  refine ⟨_, handleSound_cycle_play m fills s hp, ?_, ?_, hclr, ?_⟩
  · simp only [List.count_append, hcount Event.Play (by simp) (by simp)]
    simp [List.count_cons]
  · simp only [List.count_append, hcount (Event.xEventGroupClearBits _) (by simp) (by simp)]
    simp [List.count_cons]
  · intro fills2
    exact handleSound_cycle_blocked m fills2 _ hclr

/-- C8: for each of the three flags, asserting it while it is already set leaves the
register unchanged, so `k >= 1` assertions made before the consumer clears the flag
leave the register that one assertion leaves.  From that state the consumer runs exactly
one response for the flag (for `LIMIT_SWITCH_BIT` after at most one earlier pass that
serves a pending touch), then finds the flag clear: a wait on it blocks and further
passes of the consumer add no second response. -/
theorem c8_reassert_is_idempotent (m : Macros)
    (hC : IsFlag m.CAP_TOUCH_BIT) (hL : IsFlag m.LIMIT_SWITCH_BIT)
    (hP : IsFlag m.PHOTO_RESIETOR_BIT) (hne : m.CAP_TOUCH_BIT ≠ m.LIMIT_SWITCH_BIT) :
    (∀ s q, s.bits &&& m.CAP_TOUCH_BIT ≠ 0 → (onCapTouchISR m q s).bits = s.bits) ∧
    (∀ s q, s.bits &&& m.LIMIT_SWITCH_BIT ≠ 0 → (onLimitSwitchISR m q s).bits = s.bits) ∧
    (∀ s argv v, s.bits &&& m.PHOTO_RESIETOR_BIT ≠ 0 →
      (handlePhotoResistor_iter m argv v s).bits = s.bits) ∧
    (∀ s k, 1 ≤ k →
      (Nat.iterate (onCapTouchISR m true) k s).bits = (onCapTouchISR m true s).bits) ∧
    (∀ s k, 1 ≤ k →
      (Nat.iterate (onLimitSwitchISR m true) k s).bits = (onLimitSwitchISR m true s).bits) ∧
    (∀ s argv v k, 1 ≤ k → v < argv.getD 1 0 % 2 ^ 16 →
      (Nat.iterate (handlePhotoResistor_iter m argv v) k s).bits
        = (handlePhotoResistor_iter m argv v s).bits) ∧
    (∀ s k, 1 ≤ k →
      ∃ s1, handleLED_cycle m text (Nat.iterate (onCapTouchISR m true) k s) = some s1 ∧
        s1.trace.count (Event.xEventGroupClearBits m.CAP_TOUCH_BIT)
          = (Nat.iterate (onCapTouchISR m true) k s).trace.count
              (Event.xEventGroupClearBits m.CAP_TOUCH_BIT) + 1 ∧
        s1.bits &&& m.CAP_TOUCH_BIT = 0 ∧
        xEventGroupWaitBits m.CAP_TOUCH_BIT false false s1 = none ∧
        ∀ n s2, handleLED_cycles m text n s1 = some s2 →
          s2.trace.count (Event.xEventGroupClearBits m.CAP_TOUCH_BIT)
            = s1.trace.count (Event.xEventGroupClearBits m.CAP_TOUCH_BIT)) ∧
    (∀ s k, 1 ≤ k →
      ∃ n s1, n ≤ 2 ∧
        handleLED_cycles m text n (Nat.iterate (onLimitSwitchISR m true) k s) = some s1 ∧
        s1.trace.count (Event.xEventGroupClearBits m.LIMIT_SWITCH_BIT)
          = (Nat.iterate (onLimitSwitchISR m true) k s).trace.count
              (Event.xEventGroupClearBits m.LIMIT_SWITCH_BIT) + 1 ∧
        s1.bits &&& m.LIMIT_SWITCH_BIT = 0 ∧
        xEventGroupWaitBits m.LIMIT_SWITCH_BIT false false s1 = none ∧
        ∀ j s2, handleLED_cycles m text j s1 = some s2 →
          s2.trace.count (Event.xEventGroupClearBits m.LIMIT_SWITCH_BIT)
            = s1.trace.count (Event.xEventGroupClearBits m.LIMIT_SWITCH_BIT)) ∧
    (∀ s argv v k fills, 1 ≤ k → v < argv.getD 1 0 % 2 ^ 16 →
      ∃ s1, handleSound_cycle m fills (Nat.iterate (handlePhotoResistor_iter m argv v) k s)
          = some s1 ∧
        s1.trace.count Event.Play
          = (Nat.iterate (handlePhotoResistor_iter m argv v) k s).trace.count Event.Play + 1 ∧
        s1.trace.count (Event.xEventGroupClearBits m.PHOTO_RESIETOR_BIT)
          = (Nat.iterate (handlePhotoResistor_iter m argv v) k s).trace.count
              (Event.xEventGroupClearBits m.PHOTO_RESIETOR_BIT) + 1 ∧
        s1.bits &&& m.PHOTO_RESIETOR_BIT = 0 ∧
        ∀ fills2, handleSound_cycle m fills2 s1 = none) := by
  have hcap : ∀ s, (onCapTouchISR m true s).bits = s.bits ||| m.CAP_TOUCH_BIT := by
    intro s; rw [onCapTouchISR_bits]; rfl
  have hlim : ∀ s, (onLimitSwitchISR m true s).bits = s.bits ||| m.LIMIT_SWITCH_BIT := by
    intro s; rw [onLimitSwitchISR_bits]; rfl
  have hpho : ∀ argv v, v < argv.getD 1 0 % 2 ^ 16 → ∀ s,
      (handlePhotoResistor_iter m argv v s).bits = s.bits ||| m.PHOTO_RESIETOR_BIT := by
    intro argv v hv s; rw [handlePhotoResistor_iter_bits, if_pos hv]
  refine ⟨?_, ?_, ?_, ?_, ?_, ?_, ?_, ?_, ?_⟩
  · intro s q h
    rw [onCapTouchISR_bits]
    cases q
    · rfl
    · exact set_flag_idem _ _ hC h
  · intro s q h
    rw [onLimitSwitchISR_bits]
    cases q
    · rfl
    · exact set_flag_idem _ _ hL h
  · intro s argv v h
    rw [handlePhotoResistor_iter_bits]
    split
    · exact set_flag_idem _ _ hP h
    · rfl
  · intro s k hk
    obtain ⟨j, rfl⟩ : ∃ j, k = j + 1 := ⟨k - 1, by omega⟩
    rw [iterate_set_bits _ _ hcap, hcap]
  · intro s k hk
    obtain ⟨j, rfl⟩ : ∃ j, k = j + 1 := ⟨k - 1, by omega⟩
    rw [iterate_set_bits _ _ hlim, hlim]
  · intro s argv v k hk hv
    obtain ⟨j, rfl⟩ : ∃ j, k = j + 1 := ⟨k - 1, by omega⟩
    rw [iterate_set_bits _ _ (hpho argv v hv), hpho argv v hv]
  · intro s k hk
    obtain ⟨j, rfl⟩ : ∃ j, k = j + 1 := ⟨k - 1, by omega⟩
    apply touch_served_once m _ hC hL hne
    rw [iterate_set_bits _ _ hcap]
    exact set_flag_self _ _ hC
  · intro s k hk
    obtain ⟨j, rfl⟩ : ∃ j, k = j + 1 := ⟨k - 1, by omega⟩
    apply limit_served_once m _ hC hL hne
    rw [iterate_set_bits _ _ hlim]
    exact set_flag_self _ _ hL
  · intro s argv v k fills hk hv
    obtain ⟨j, rfl⟩ : ∃ j, k = j + 1 := ⟨k - 1, by omega⟩
    apply photo_served_once m fills _ hP
    rw [iterate_set_bits _ _ (hpho argv v hv)]
    exact set_flag_self _ _ hP

theorem c8_reassert_is_idempotent_witness :
    (Nat.iterate (onCapTouchISR esp32 true) 3 { interactEG := 7, bits := 0, trace := [] }).bits
      = (onCapTouchISR esp32 true { interactEG := 7, bits := 0, trace := [] }).bits :=
  (c8_reassert_is_idempotent esp32 ⟨0, by decide, by decide⟩ ⟨1, by decide, by decide⟩
    ⟨2, by decide, by decide⟩ (by decide)).2.2.2.1
      { interactEG := 7, bits := 0, trace := [] } 3 (by decide)

/-- C9: no producer step (`onCapTouchISR`, `onLimitSwitchISR`, one iteration of
`handlePhotoResistor`) clears a flag: whatever was set before is set after.  A wake cycle
of `handleSound` changes no flag other than `PHOTO_RESIETOR_BIT`; a wake cycle of
`handleLED` either stays blocked, or serves touch and changes no flag other than
`CAP_TOUCH_BIT`, or serves limit and changes no flag other than `LIMIT_SWITCH_BIT`, and
in no case touches `PHOTO_RESIETOR_BIT`; a wait with clear-on-exit false changes no bit. -/
theorem c9_flag_ownership (m : Macros)
    (hC : IsFlag m.CAP_TOUCH_BIT) (hL : IsFlag m.LIMIT_SWITCH_BIT)
    (hP : IsFlag m.PHOTO_RESIETOR_BIT)
    (hCP : m.CAP_TOUCH_BIT ≠ m.PHOTO_RESIETOR_BIT)
    (hLP : m.LIMIT_SWITCH_BIT ≠ m.PHOTO_RESIETOR_BIT) :
    (∀ s q g, s.bits &&& g ≠ 0 → (onCapTouchISR m q s).bits &&& g ≠ 0) ∧
    (∀ s q g, s.bits &&& g ≠ 0 → (onLimitSwitchISR m q s).bits &&& g ≠ 0) ∧
    (∀ s argv v g, s.bits &&& g ≠ 0 → (handlePhotoResistor_iter m argv v s).bits &&& g ≠ 0) ∧
    (∀ s fills, (handleSound_cycle m fills s = none ∧ s.bits &&& m.PHOTO_RESIETOR_BIT = 0) ∨
          (s.bits &&& m.PHOTO_RESIETOR_BIT ≠ 0 ∧
            ∃ s1, handleSound_cycle m fills s = some s1 ∧
              s1.bits = s.bits &&& not32 m.PHOTO_RESIETOR_BIT ∧
              ∀ g, IsFlag g → g ≠ m.PHOTO_RESIETOR_BIT → s1.bits &&& g = s.bits &&& g)) ∧
    (∀ s, (handleLED_cycle m text s = none ∧
            s.bits &&& m.CAP_TOUCH_BIT = 0 ∧ s.bits &&& m.LIMIT_SWITCH_BIT = 0) ∨
          (s.bits &&& m.CAP_TOUCH_BIT ≠ 0 ∧
            ∃ s1, handleLED_cycle m text s = some s1 ∧
              s1.bits = s.bits &&& not32 m.CAP_TOUCH_BIT ∧
              ∀ g, IsFlag g → g ≠ m.CAP_TOUCH_BIT → s1.bits &&& g = s.bits &&& g) ∨
          (s.bits &&& m.CAP_TOUCH_BIT = 0 ∧ s.bits &&& m.LIMIT_SWITCH_BIT ≠ 0 ∧
            ∃ s1, handleLED_cycle m text s = some s1 ∧
              s1.bits = s.bits &&& not32 m.LIMIT_SWITCH_BIT ∧
              ∀ g, IsFlag g → g ≠ m.LIMIT_SWITCH_BIT → s1.bits &&& g = s.bits &&& g)) ∧
    (∀ s s1, handleLED_cycle m text s = some s1 →
      s1.bits &&& m.PHOTO_RESIETOR_BIT = s.bits &&& m.PHOTO_RESIETOR_BIT) ∧
    (∀ mask waitForAll s curBits s1,
      xEventGroupWaitBits mask false waitForAll s = some (curBits, s1) →
        s1.bits = s.bits ∧ curBits = s.bits) := by
  have hled : ∀ s, (handleLED_cycle m text s = none ∧
            s.bits &&& m.CAP_TOUCH_BIT = 0 ∧ s.bits &&& m.LIMIT_SWITCH_BIT = 0) ∨
          (s.bits &&& m.CAP_TOUCH_BIT ≠ 0 ∧
            ∃ s1, handleLED_cycle m text s = some s1 ∧
              s1.bits = s.bits &&& not32 m.CAP_TOUCH_BIT ∧
              ∀ g, IsFlag g → g ≠ m.CAP_TOUCH_BIT → s1.bits &&& g = s.bits &&& g) ∨
          (s.bits &&& m.CAP_TOUCH_BIT = 0 ∧ s.bits &&& m.LIMIT_SWITCH_BIT ≠ 0 ∧
            ∃ s1, handleLED_cycle m text s = some s1 ∧
              s1.bits = s.bits &&& not32 m.LIMIT_SWITCH_BIT ∧
              ∀ g, IsFlag g → g ≠ m.LIMIT_SWITCH_BIT → s1.bits &&& g = s.bits &&& g) := by
    intro s
    by_cases hc : s.bits &&& m.CAP_TOUCH_BIT = 0
    · by_cases hl : s.bits &&& m.LIMIT_SWITCH_BIT = 0
      · exact Or.inl ⟨handleLED_cycle_blocked m text s hc hl, hc, hl⟩
      · obtain ⟨s1, h1, hb1, _⟩ := handleLED_cycle_limit_ex m s hc hl
        refine Or.inr (Or.inr ⟨hc, hl, s1, h1, hb1, ?_⟩)
        intro g hg hne
        rw [hb1, clear_flag_other _ _ _ hL hg (Ne.symm hne)]
    · obtain ⟨s1, h1, hb1, _⟩ := handleLED_cycle_touch_ex m s hc
      refine Or.inr (Or.inl ⟨hc, s1, h1, hb1, ?_⟩)
      intro g hg hne
      rw [hb1, clear_flag_other _ _ _ hC hg (Ne.symm hne)]
  refine ⟨?_, ?_, ?_, ?_, hled, ?_, ?_⟩
  · intro s q g h
    rw [onCapTouchISR_bits]
    cases q
    · exact h
    · exact or_and_ne_zero _ _ _ h
  · intro s q g h
    rw [onLimitSwitchISR_bits]
    cases q
    · exact h
    · exact or_and_ne_zero _ _ _ h
  · intro s argv v g h
    rw [handlePhotoResistor_iter_bits]
    split
    · exact or_and_ne_zero _ _ _ h
    · exact h
  · intro s fills
    by_cases hp : s.bits &&& m.PHOTO_RESIETOR_BIT = 0
    · exact Or.inl ⟨handleSound_cycle_blocked m fills s hp, hp⟩
    · refine Or.inr ⟨hp, _, handleSound_cycle_play m fills s hp, rfl, ?_⟩
      intro g hg hne
      exact clear_flag_other _ _ _ hP hg (Ne.symm hne)
  · intro s s1 h
    rcases hled s with ⟨h0, _, _⟩ | ⟨_, s2, h2, _, hfr⟩ | ⟨_, _, s2, h2, _, hfr⟩
    · rw [h0] at h
      exact absurd h (by simp)
    · rw [h2] at h
      injection h with h
      subst h
      exact hfr _ hP (Ne.symm hCP)
    · rw [h2] at h
      injection h with h
      subst h
      exact hfr _ hP (Ne.symm hLP)
  · intro mask waitForAll s curBits s1 h
    unfold xEventGroupWaitBits at h
    by_cases hw : (if waitForAll = true then s.bits &&& mask = mask else s.bits &&& mask ≠ 0)
    · rw [if_pos hw] at h
      simp only [Bool.false_eq_true, if_false, Option.some.injEq, Prod.mk.injEq] at h
      obtain ⟨h1, h2⟩ := h
      subst h2
      exact ⟨rfl, h1.symm⟩
    · rw [if_neg hw] at h
      exact absurd h (by simp)

theorem c9_flag_ownership_witness :
    (onLimitSwitchISR esp32 true { interactEG := 7, bits := 5, trace := [] }).bits
      &&& esp32.PHOTO_RESIETOR_BIT ≠ 0 :=
  (c9_flag_ownership esp32 ⟨0, by decide, by decide⟩ ⟨1, by decide, by decide⟩
    ⟨2, by decide, by decide⟩ (by decide) (by decide)).2.1
      { interactEG := 7, bits := 5, trace := [] } true esp32.PHOTO_RESIETOR_BIT (by decide)

/-! ## The sound task as a state machine -/

theorem run_append (m : Macros) (as bs : List Action) (x : SoundSys) :
    run m (as ++ bs) x = match run m as x with
      | none => none
      | some y => run m bs y := by
  induction as generalizing x with
  | nil => simp [run]
  | cons a rest ih =>
    simp only [List.cons_append, run]
    cases step m a x with
    | none => rfl
    | some z => exact ih z

theorem run_fill_loop (m : Macros) (k : Nat) (st : State) (cur sessions : Nat) :
    run m (List.replicate k [Action.sound false, Action.sound false]).flatten
        { st := st, pc := SoundPc.testPlaying, curBits := cur, playing := true,
          sessions := sessions }
      = some { st := playLoop k st, pc := SoundPc.testPlaying, curBits := cur,
               playing := true, sessions := sessions } := by
  induction k generalizing st with
  | zero => simp [run, playLoop]
  | succ k ih =>
    rw [List.replicate_succ, List.flatten_cons, run_append]
    simp only [run, step, handleSound_step, if_true, Bool.false_eq_true, if_false]
    rw [ih, playLoop]

theorem soloPass_eq_cycle (m : Macros) (fills : Nat) (s : State) (cur : Nat)
    (hp : s.bits &&& m.PHOTO_RESIETOR_BIT ≠ 0) :
    ∃ s1, handleSound_cycle m (fills + 1) s = some s1 ∧
      run m (soloPass fills) (SoundSys.start s cur) = some (SoundSys.start s1 s.bits) := by
  refine ⟨_, handleSound_cycle_play m (fills + 1) s hp, ?_⟩
  unfold soloPass
  rw [run_append, run_append]
  simp only [run, step, handleSound_step, SoundSys.start, xEventGroupWaitBits,
    Bool.false_eq_true, if_false, hp, ne_eq, not_false_eq_true, if_true]
  rw [run_fill_loop, playLoop_eq]
  simp [run, step, handleSound_step, emit, xEventGroupClearBits, List.replicate_succ',
    List.flatten_append]

end RobotDog
